import Mathlib

/-
Verification of the entity-lifecycle and collision engine of the
Optimized-Click-Fire arcade game.

The JavaScript source is shallowly embedded: JS numbers are idealized as
exact rationals (ℚ) wherever the code only adds, multiplies, divides and
compares, and as reals (ℝ) for the player physics, whose speed clamp uses
a square root. Mutation is explicit state passing; the DOM, canvas and
colors are carried only where an embedded function assigns them.
-/

namespace ClickFire

/-- Generic object pool (src/utils/pool.js, class ObjectPool). The free
list `pool` is a JS array: release pushes on the end, get pops from the
end. `createFn` is the supplied construction factory. -/
structure ObjectPool (α : Type) where
  pool : List α
  createFn : Unit → α

/-- The ObjectPool constructor pre-fills the free list with `initialSize`
fresh objects (pool.js constructor, via the size loop). -/
def makePool {α : Type} (createFn : Unit → α) (initialSize : Nat) : ObjectPool α :=
  { pool := List.replicate initialSize (createFn ()), createFn := createFn }

/-- pool.js get(): pop the last element of the free list when it is
non-empty, otherwise build a fresh object with the factory. Acquisition
is total: it never fails. -/
def ObjectPool.get {α : Type} (P : ObjectPool α) : α × ObjectPool α :=
  match P.pool.getLast? with
  | some e => (e, { P with pool := P.pool.dropLast })
  | none => (P.createFn (), P)

/-- pool.js release(object): push onto the end of the free list. Nothing
is cleared or reset. -/
def ObjectPool.release {α : Type} (P : ObjectPool α) (e : α) : ObjectPool α :=
  { P with pool := P.pool ++ [e] }

/-- A target entity, with the fields assigned by the target-pool factory
(game.js initializePools) and by createTarget. -/
structure Target where
  x : ℚ
  y : ℚ
  radius : ℚ
  color : String
  creationTime : ℚ
  currentOpacity : ℚ
  deriving DecidableEq, Repr

/-- A projectile entity, with the fields assigned by the projectile-pool
factory (game.js initializePools) and by createProjectile. -/
structure Projectile where
  x : ℚ
  y : ℚ
  radius : ℚ
  color : String
  vx : ℚ
  vy : ℚ
  deriving DecidableEq, Repr

/-- Entry stored in a spatial-grid bucket: collision.js addObject pushes
the pair (obj, original index). -/
structure TargetRef where
  obj : Target
  index : Nat
  deriving DecidableEq, Repr

/-- collision.js SpatialGrid. The JS `grid` object maps the string key
"cx,cy" to a bucket array; that key is an injective image of the integer
pair (cx, cy), so the map is modelled directly on ℤ × ℤ, with an absent
key read as an empty bucket. -/
structure SpatialGrid where
  cellSize : ℚ
  grid : ℤ × ℤ → List TargetRef

/-- collision.js clear(): drop every bucket. -/
def SpatialGrid.clear (g : SpatialGrid) : SpatialGrid :=
  { g with grid := fun _ => [] }

/-- Cell key of a point: (floor(x / cellSize), floor(y / cellSize)). -/
def cellKey (cellSize : ℚ) (x y : ℚ) : ℤ × ℤ :=
  (⌊x / cellSize⌋, ⌊y / cellSize⌋)

/-- collision.js addObject(object, index): append (object, index) to the
bucket of the object's cell. -/
def SpatialGrid.addObject (g : SpatialGrid) (object : Target) (index : Nat) : SpatialGrid :=
  let key := cellKey g.cellSize object.x object.y
  { g with grid := fun k => if k = key then g.grid k ++ [⟨object, index⟩] else g.grid k }

/-- collision.js getNearbyObjects(x, y): concatenate the buckets of the
query cell and its 8 neighbours, offsetX in the outer loop from -1 to 1,
offsetY in the inner loop. -/
def SpatialGrid.getNearbyObjects (g : SpatialGrid) (x y : ℚ) : List TargetRef :=
  let c := cellKey g.cellSize x y
  ([-1, 0, 1] : List ℤ).flatMap fun offsetX =>
    ([-1, 0, 1] : List ℤ).flatMap fun offsetY =>
      g.grid (c.1 + offsetX, c.2 + offsetY)

/-- A grid with every bucket empty (fresh or just cleared). -/
def emptyGrid (cellSize : ℚ) : SpatialGrid :=
  { cellSize := cellSize, grid := fun _ => [] }

/-- game.js checkCollisions, first two lines: clear the grid, then insert
every live target together with its current index in the live list. -/
def buildGrid (cellSize : ℚ) (targets : List Target) : SpatialGrid :=
  targets.enum.foldl (fun g it => g.addObject it.2 it.1) (emptyGrid cellSize)

/-- game.js collision test: Math.hypot(p.x - t.x, p.y - t.y) <
p.radius + t.radius. To stay inside ℚ the test is phrased on squares,
which is equivalent because the hypotenuse is non-negative: for d ≥ 0,
d < s holds iff 0 < s and d^2 < s^2. -/
def collides (p : Projectile) (t : Target) : Bool :=
  decide (0 < p.radius + t.radius ∧
    (p.x - t.x) ^ 2 + (p.y - t.y) ^ 2 < (p.radius + t.radius) ^ 2)

/-- The slice of Game state that checkCollisions touches (game.js
249-272). Pools appear as their free lists: checkCollisions only calls
release, which appends. -/
structure CollState where
  projectiles : List Projectile
  targets : List Target
  projectilePool : List Projectile
  targetPool : List Target
  score : ℤ
  deriving DecidableEq, Repr

/-- Body of the candidate loop of checkCollisions for one projectile,
given the candidate list the neighbourhood query returned: scan the
candidates in order; on the first hit release the target, splice the
target list at the candidate's recorded index, release the projectile
and add the score reward, then break. A projectile that hits nothing
stays in the live projectile list. -/
def stepProjectileOn (scoreValue : ℤ) (nearby : List TargetRef) (p : Projectile)
    (s : CollState) : CollState :=
  match nearby.find? (fun td => collides p td.obj) with
  | some td =>
      { s with targetPool := s.targetPool ++ [td.obj],
               targets := s.targets.eraseIdx td.index,
               projectilePool := s.projectilePool ++ [p],
               score := s.score + scoreValue }
  | none => { s with projectiles := p :: s.projectiles }

/-- One projectile of the outer loop: query the neighbourhood at the
projectile's position, then run the candidate scan. -/
def stepProjectile (grid : SpatialGrid) (scoreValue : ℤ) (p : Projectile)
    (s : CollState) : CollState :=
  stepProjectileOn scoreValue (grid.getNearbyObjects p.x p.y) p s

/-- The outer projectile loop runs from the highest index down to 0, and
splicing at the loop index removes exactly the current projectile; that
equals processing the reversed projectile list and re-accumulating the
survivors at the front, which restores the original order. -/
def runProjectiles (grid : SpatialGrid) (scoreValue : ℤ) :
    List Projectile → CollState → CollState
  | [], s => s
  | p :: rest, s => runProjectiles grid scoreValue rest (stepProjectile grid scoreValue p s)

/-- game.js checkCollisions: rebuild the grid from the live targets,
recording indices, then run the projectile loop. The grid is built once
at entry and is not updated while the pass removes entities. -/
def checkCollisions (cellSize : ℚ) (scoreValue : ℤ) (s : CollState) : CollState :=
  let grid := buildGrid cellSize s.targets
  runProjectiles grid scoreValue s.projectiles.reverse { s with projectiles := [] }

/-- The TARGET group of configuration values used by the target
lifecycle. -/
structure TargetConfig where
  minSize : ℚ
  sizeVariation : ℚ
  maxLifespan : ℚ
  fadeStartPercent : ℚ

/-- game.js createTarget: overwrite the pooled target's radius, position,
creation timestamp and opacity. r1, r2, r3 stand for the three
Math.random() draws, each in [0,1). -/
def createTarget (cfg : TargetConfig) (width height : ℚ) (now : ℚ)
    (r1 r2 r3 : ℚ) (pooled : Target) : Target :=
  let radius := r1 * cfg.sizeVariation + cfg.minSize
  let x := r2 * (width - radius * 2) + radius
  let y := r3 * (height / 2) + radius
  { pooled with radius := radius, x := x, y := y, creationTime := now, currentOpacity := 1 }

/-- Body of the updateTargets loop for one target: none means expired
(released and spliced out), some gives the survivor with its possibly
faded opacity. -/
def updateTarget (cfg : TargetConfig) (now : ℚ) (t : Target) : Option Target :=
  let targetAge := now - t.creationTime
  if targetAge ≥ cfg.maxLifespan then none
  else if targetAge > cfg.maxLifespan * cfg.fadeStartPercent then
    let fadeTimeTotal := cfg.maxLifespan * (1 - cfg.fadeStartPercent)
    let fadeTimeElapsed := targetAge - cfg.maxLifespan * cfg.fadeStartPercent
    some { t with currentOpacity := 1 - fadeTimeElapsed / fadeTimeTotal }
  else some t

/-- game.js updateTargets: the backwards splice loop keeps exactly the
non-expired targets in their original order and releases the expired
ones to the pool. Returns (survivors, released). The source releases
from the highest index down; only the collection of released targets
matters to the resulting state. -/
def updateTargets (cfg : TargetConfig) (now : ℚ) : List Target → List Target × List Target
  | [] => ([], [])
  | t :: rest =>
      let p := updateTargets cfg now rest
      match updateTarget cfg now t with
      | none => (p.1, t :: p.2)
      | some t2 => (t2 :: p.1, p.2)

/-- GameRenderer.drawTargets opacity bucket: Math.round(op * 100) / 100.
JS Math.round x equals ⌊x + 1/2⌋, which is Mathlib's round on ℚ. -/
def roundOpacity (q : ℚ) : ℚ :=
  ((round (q * 100) : ℤ) : ℚ) / 100

/-- Number of distinct rounded opacity buckets: the size of the JS Set
built from the rounded opacities. -/
def uniqueOpacities (targets : List Target) : Nat :=
  ((targets.map fun t => roundOpacity t.currentOpacity).dedup).length

/-- Draw-mode selector of GameRenderer.drawTargets: per-entity draws when
uniqueOpacities > targets.length / 3 (JS real division), otherwise batch
by opacity bucket. true = per-entity, false = batched. -/
def drawTargetsIndividually (targets : List Target) : Bool :=
  decide (((uniqueOpacities targets : ℚ)) > (targets.length : ℚ) / 3)

/-- The scheduling slice of Game.update. Simulation and rendering are
abstracted to a record of the timestamps at which the simulation
actually ran (simUpdates, newest first) and a render counter; the
scheduling claims only concern which callbacks update and render. -/
structure SchedState where
  lastUpdateTime : ℚ
  lastFpsUpdateTime : ℚ
  frameCount : ℕ
  currentFps : ℕ
  running : Bool
  simUpdates : List ℚ
  renderCount : ℕ
  deriving DecidableEq, Repr

/-- One requestAnimationFrame callback of Game.update(timestamp): frame
counting and FPS publication first, then the frame-interval gate (on a
too-early callback: reschedule only), then the pause gate, then simulate
and render. Rescheduling itself is the continuation of the run. -/
def schedUpdate (frameTime : ℚ) (s : SchedState) (timestamp : ℚ) : SchedState :=
  let s1 := { s with frameCount := s.frameCount + 1 }
  let s2 :=
    if timestamp - s1.lastFpsUpdateTime > 1000 then
      { s1 with currentFps := s1.frameCount, frameCount := 0, lastFpsUpdateTime := timestamp }
    else s1
  if timestamp - s2.lastUpdateTime < frameTime then s2
  else
    let s3 := { s2 with lastUpdateTime := timestamp }
    if s3.running = false then s3
    else { s3 with simUpdates := timestamp :: s3.simUpdates,
                   renderCount := s3.renderCount + 1 }

/-- Initial scheduler state (Game.initializeState). -/
def initSched : SchedState :=
  { lastUpdateTime := 0, lastFpsUpdateTime := 0, frameCount := 0, currentFps := 0,
    running := true, simUpdates := [], renderCount := 0 }

/-- A run of the scheduler over a sequence of callbacks; each callback
carries its timestamp and the externally controlled running flag at that
moment. -/
def runSched (frameTime : ℚ) : SchedState → List (ℚ × Bool) → SchedState
  | s, [] => s
  | s, (t, r) :: rest =>
      runSched frameTime (schedUpdate frameTime { s with running := r } t) rest

/-- Any two entries of the list are at least gap apart. -/
def Separated (gap : ℚ) (l : List ℚ) : Prop :=
  List.Pairwise (fun a b => gap ≤ |a - b|) l

/-- Player physics state (game.js player object): position and velocity.
The speed clamp divides by a square root, so this part of the embedding
lives in ℝ. -/
structure Player where
  x : ℝ
  y : ℝ
  vx : ℝ
  vy : ℝ

/-- The PLAYER configuration group plus the canvas extent, as read by
updatePlayer. -/
structure PlayerConfig where
  acceleration : ℝ
  maxSpeed : ℝ
  friction : ℝ
  bounceEnergyLoss : ℝ
  boundaryPadding : ℝ
  width : ℝ
  height : ℝ

/-- Held-direction flags (game.js inputState). -/
structure InputState where
  left : Bool
  right : Bool
  up : Bool
  down : Bool

/-- Speed magnitude of the player's velocity vector. -/
noncomputable def speed (p : Player) : ℝ :=
  Real.sqrt (p.vx ^ 2 + p.vy ^ 2)

/-- updatePlayer, first block: apply acceleration from the held
direction flags, one if per flag, in source order. -/
def applyInputAccel (accel : ℝ) (inp : InputState) (p : Player) : Player :=
  let vx1 := if inp.left then p.vx - accel else p.vx
  let vx2 := if inp.right then vx1 + accel else vx1
  let vy1 := if inp.up then p.vy - accel else p.vy
  let vy2 := if inp.down then vy1 + accel else vy1
  { p with vx := vx2, vy := vy2 }

/-- updatePlayer, speed-limit block: when the velocity magnitude exceeds
maxSpeed, scale both components by maxSpeed / currentSpeed. -/
noncomputable def clampSpeed (maxSpeed : ℝ) (p : Player) : Player :=
  let currentSpeed := Real.sqrt (p.vx ^ 2 + p.vy ^ 2)
  if currentSpeed > maxSpeed then
    { p with vx := p.vx * (maxSpeed / currentSpeed),
             vy := p.vy * (maxSpeed / currentSpeed) }
  else p

/-- updatePlayer, friction block: multiply both velocity components by
the friction factor. -/
def applyFriction (friction : ℝ) (p : Player) : Player :=
  { p with vx := p.vx * friction, vy := p.vy * friction }

/-- updatePlayer, snap block: a component of magnitude below 0.01 is set
to exactly 0. -/
noncomputable def snapTinyVelocity (p : Player) : Player :=
  { p with vx := if |p.vx| < 0.01 then 0 else p.vx,
           vy := if |p.vy| < 0.01 then 0 else p.vy }

/-- updatePlayer, position and boundary block: integrate the position,
then on each of the four edges clamp the position to the boundary and
multiply the corresponding velocity component by minus the bounce
energy-loss factor. -/
noncomputable def integrateAndBounce (cfg : PlayerConfig) (p : Player) : Player :=
  let x1 := p.x + p.vx
  let y1 := p.y + p.vy
  let x2 := if x1 < cfg.boundaryPadding then cfg.boundaryPadding
            else if x1 > cfg.width - cfg.boundaryPadding then cfg.width - cfg.boundaryPadding
            else x1
  let vx2 := if x1 < cfg.boundaryPadding then p.vx * -cfg.bounceEnergyLoss
             else if x1 > cfg.width - cfg.boundaryPadding then p.vx * -cfg.bounceEnergyLoss
             else p.vx
  let y2 := if y1 < cfg.boundaryPadding then cfg.boundaryPadding
            else if y1 > cfg.height - cfg.boundaryPadding then cfg.height - cfg.boundaryPadding
            else y1
  let vy2 := if y1 < cfg.boundaryPadding then p.vy * -cfg.bounceEnergyLoss
             else if y1 > cfg.height - cfg.boundaryPadding then p.vy * -cfg.bounceEnergyLoss
             else p.vy
  { x := x2, y := y2, vx := vx2, vy := vy2 }

/-- game.js updatePlayer: acceleration from the held flags, speed clamp,
multiplicative friction, snap of near-zero velocity components to 0,
position integration, then boundary reflection on each of the four edges
with the bounce energy-loss factor — the five source blocks in order. -/
noncomputable def updatePlayer (cfg : PlayerConfig) (inp : InputState) (p : Player) : Player :=
  integrateAndBounce cfg
    (snapTinyVelocity
      (applyFriction cfg.friction
        (clampSpeed cfg.maxSpeed
          (applyInputAccel cfg.acceleration inp p))))

/-- A run of updatePlayer over a sequence of per-tick held-direction
inputs. -/
noncomputable def runPlayer (cfg : PlayerConfig) (inputs : List InputState) (p : Player) : Player :=
  inputs.foldl (fun q i => updatePlayer cfg i q) p

/-- A JS value inside the configuration object: number, string, or
nested object (association list of fields). -/
inductive ConfigValue where
  | num : ℚ → ConfigValue
  | str : String → ConfigValue
  | obj : List (String × ConfigValue) → ConfigValue

/-- Property access v.k: defined only on objects that carry the field. -/
def lookupField : ConfigValue → String → Option ConfigValue
  | ConfigValue.obj fields, k => (fields.find? (fun f => f.1 == k)).map (fun f => f.2)
  | _, _ => none

/-- A chained property access v.k1.k2...: any undefined step gives none.
In JS, reading a property of undefined throws a TypeError, so a path
whose prefix already resolves to nothing faults at run time. -/
def lookupPath (v : ConfigValue) : List String → Option ConfigValue
  | [] => some v
  | k :: rest =>
      match lookupField v k with
      | some w => lookupPath w rest
      | none => none

/-- The shipped CONFIG object, transcribed from src/config/gameConfig.js. -/
def CONFIG : ConfigValue :=
  ConfigValue.obj
    [("TARGET_FPS", ConfigValue.num 60),
     ("FRAME_TIME", ConfigValue.num (1000 / 60)),
     ("GRID_CELL_SIZE", ConfigValue.num 100),
     ("TARGET_SPAWN_INTERVAL", ConfigValue.num 200),
     ("TARGET_MAX_LIFESPAN", ConfigValue.num 8000),
     ("TARGET_FADE_START_PERCENT", ConfigValue.num (75 / 100)),
     ("PROJECTILE_SPEED", ConfigValue.num 5),
     ("PROJECTILE_RADIUS", ConfigValue.num 5),
     ("INITIAL_POOL_SIZE", ConfigValue.num 20),
     ("TARGET_MIN_SIZE", ConfigValue.num 10),
     ("TARGET_SIZE_VARIATION", ConfigValue.num 20),
     ("COLORS", ConfigValue.obj
       [("PLAYER", ConfigValue.str "blue"),
        ("TARGET", ConfigValue.str "green"),
        ("PROJECTILE", ConfigValue.str "red")])]

/-- The nested configuration paths that game.js dereferences in its core
operations: initializeState, initializePools, initializeCollisionSystem,
updatePlayer, createProjectile, createTarget, updateTargets and update. -/
def gameConfigPaths : List (List String) :=
  [["PLAYER", "SIZE"],
   ["PLAYER", "ACCELERATION"],
   ["PLAYER", "MAX_SPEED"],
   ["PLAYER", "FRICTION"],
   ["PLAYER", "BOUNDARY_PADDING"],
   ["PLAYER", "BOUNCE_ENERGY_LOSS"],
   ["POOLS", "INITIAL_SIZE"],
   ["PERFORMANCE", "GRID_CELL_SIZE"],
   ["PERFORMANCE", "FRAME_TIME"],
   ["PROJECTILE", "SPEED"],
   ["PROJECTILE", "MOMENTUM_TRANSFER"],
   ["TARGET", "MAX_LIFESPAN"]]

/-- The target of the spec's concrete collision test: centre (100,100),
radius 10. -/
def exampleTarget : Target :=
  { x := 100, y := 100, radius := 10, color := "green", creationTime := 0, currentOpacity := 1 }

/-- The projectile of the spec's concrete collision test: centre
(105,100), radius 5. -/
def exampleProjectile : Projectile :=
  { x := 105, y := 100, radius := 5, color := "red", vx := 0, vy := 0 }

/-- A target in grid cell (0,0) at (10,10), radius 5. -/
def targetA : Target :=
  { x := 10, y := 10, radius := 5, color := "green", creationTime := 0, currentOpacity := 1 }

/-- A second target in the same grid cell at (80,80), radius 5. -/
def targetB : Target :=
  { x := 80, y := 80, radius := 5, color := "green", creationTime := 0, currentOpacity := 1 }

/-- A projectile sitting exactly on targetA. -/
def projOnA : Projectile :=
  { x := 10, y := 10, radius := 5, color := "red", vx := 0, vy := 0 }

/-- A projectile sitting exactly on targetB. -/
def projOnB : Projectile :=
  { x := 80, y := 80, radius := 5, color := "red", vx := 0, vy := 0 }

/-- A projectile at (500,500), far from every grid cell that holds a
target in the concrete scenarios below. -/
def farProjectile : Projectile :=
  { x := 500, y := 500, radius := 5, color := "red", vx := 0, vy := 0 }

/-- Scheduler invariant: every recorded simulation timestamp is at most
the last accepted timestamp, and consecutive recorded timestamps (newest
first) are at least one frame interval apart. -/
def SchedInv (frameTime : ℚ) (s : SchedState) : Prop :=
  (∀ u ∈ s.simUpdates, u ≤ s.lastUpdateTime) ∧
  List.Chain' (fun a b => b + frameTime ≤ a) s.simUpdates

/-- C7: ObjectPool.get returns a recycled instance exactly when the free
list is non-empty — the most recently pushed element, which it removes
from the free list — and otherwise builds a fresh object with the
factory, so acquisition never fails; and immediately after release(e)
the very object e is the next one handed out, with every field exactly
as it was at release time: the pool clears and resets nothing. -/
theorem pool_acquire_release_contract {α : Type} (P : ObjectPool α) (e : α) :
    ((P.release e).get).1 = e ∧
    ((P.release e).get).2.pool = P.pool ∧
    (∀ v, P.pool.getLast? = some v →
      (P.get).1 = v ∧ (P.get).2.pool = P.pool.dropLast) ∧
    (P.pool = [] → (P.get).1 = P.createFn () ∧ (P.get).2.pool = P.pool) := by
  refine ⟨?_, ?_, ?_, ?_⟩
  · simp [ObjectPool.get, ObjectPool.release, List.getLast?_concat]
  · simp [ObjectPool.get, ObjectPool.release, List.getLast?_concat, List.dropLast_concat]
  · intro v hv
    simp [ObjectPool.get, hv]
  · intro hnil
    simp [ObjectPool.get, hnil]

/-- Witness for C7 on a concrete pool: the free list [0, 1] with factory
value 7; releasing 5 makes the next acquisition return 5 over the
untouched remainder, a non-empty pool recycles its last element, and an
empty pool falls back to the factory. -/
theorem pool_acquire_release_contract_witness :
    ((ObjectPool.release ⟨[0, 1], fun _ => 7⟩ 5).get).1 = 5 ∧
    ((⟨[0, 1], fun _ => 7⟩ : ObjectPool ℕ).get).1 = 1 ∧
    ((⟨[], fun _ => 7⟩ : ObjectPool ℕ).get).1 = 7 := by
  refine ⟨(pool_acquire_release_contract ⟨[0, 1], fun _ => 7⟩ 5).1, ?_, ?_⟩
  · exact ((pool_acquire_release_contract (⟨[0, 1], fun _ => 7⟩ : ObjectPool ℕ) 5).2.2.1 1
      (by rfl)).1
  · exact ((pool_acquire_release_contract (⟨[], fun _ => 7⟩ : ObjectPool ℕ) 5).2.2.2 rfl).1

/-- C10 fails on the shipped code: the CONFIG object of gameConfig.js is
flat, so the nested paths game.js dereferences all resolve to nothing.
In particular CONFIG.PLAYER is already undefined, and the very first
access CONFIG.PLAYER.SIZE (Game.initializeState) faults on reading SIZE
from undefined instead of producing a value. -/
theorem config_nested_paths_undefined :
    lookupField CONFIG "PLAYER" = none ∧
    gameConfigPaths.all (fun p => (lookupPath CONFIG p).isNone) = true := by
  exact ⟨rfl, rfl⟩

/-- C9 (amended): drawTargets selects the batched-by-opacity-bucket mode
exactly when the number of distinct rounded opacity buckets is at most
one third of the target population — equality included — and per-entity
draws exactly when the bucket count strictly exceeds one third. -/
theorem drawTargets_mode_selection (targets : List Target) :
    drawTargetsIndividually targets = false ↔
      (uniqueOpacities targets : ℚ) ≤ (targets.length : ℚ) / 3 := by
  simp [drawTargetsIndividually, not_lt]

/-- C9 counterexample: three live targets in one opacity bucket. The
bucket count 1 equals exactly one third of the population 3, so the
claim demands per-entity draws, but the code selects the batched mode. -/
theorem drawTargets_boundary_counterexample :
    drawTargetsIndividually
      [{ x := 100, y := 100, radius := 10, color := "green", creationTime := 0,
         currentOpacity := 1 },
       { x := 200, y := 100, radius := 10, color := "green", creationTime := 0,
         currentOpacity := 1 },
       { x := 300, y := 100, radius := 10, color := "green", creationTime := 0,
         currentOpacity := 1 }] = false ∧
    ¬ ((uniqueOpacities
      [{ x := 100, y := 100, radius := 10, color := "green", creationTime := 0,
         currentOpacity := 1 },
       { x := 200, y := 100, radius := 10, color := "green", creationTime := 0,
         currentOpacity := 1 },
       { x := 300, y := 100, radius := 10, color := "green", creationTime := 0,
         currentOpacity := 1 }] : ℚ) < (3 : ℚ) / 3) := by
  constructor
  · norm_num [drawTargetsIndividually, uniqueOpacities, roundOpacity,
      List.dedup_cons_of_mem]
  · norm_num [uniqueOpacities, roundOpacity, List.dedup_cons_of_mem]

/-- Inserting an object never changes the configured cell size. -/
theorem addObject_cellSize (g : SpatialGrid) (o : Target) (i : Nat) :
    (g.addObject o i).cellSize = g.cellSize := rfl

/-- Bucket contents after folding a list of (index, target) insertions
over a grid: the original bucket followed by the insertions that land in
the queried cell, in insertion order. -/
theorem grid_foldl_bucket (l : List (Nat × Target)) (g : SpatialGrid) (k : ℤ × ℤ) :
    ((l.foldl (fun h it => h.addObject it.2 it.1) g).grid) k =
      g.grid k ++ (l.filter fun it =>
        decide (cellKey g.cellSize it.2.x it.2.y = k)).map
          (fun it => ⟨it.2, it.1⟩) := by
  induction l generalizing g with
  | nil => simp
  | cons a rest ih =>
    rw [List.foldl_cons, ih]
    by_cases h : cellKey g.cellSize a.2.x a.2.y = k
    · simp [SpatialGrid.addObject, addObject_cellSize, List.filter_cons, h, if_pos h.symm]
    · have hne : ¬ (k = cellKey g.cellSize a.2.x a.2.y) := fun hk => h hk.symm
      simp [SpatialGrid.addObject, addObject_cellSize, List.filter_cons, h, if_neg hne]

/-- Folding insertions never changes the configured cell size. -/
theorem grid_foldl_cellSize (l : List (Nat × Target)) (g : SpatialGrid) :
    (l.foldl (fun h it => h.addObject it.2 it.1) g).cellSize = g.cellSize := by
  induction l generalizing g with
  | nil => rfl
  | cons a rest ih => rw [List.foldl_cons, ih, addObject_cellSize]

/-- The bucket of a grid freshly rebuilt from an enumerated target list. -/
theorem buildGrid_bucket (c : ℚ) (ts : List Target) (k : ℤ × ℤ) :
    (buildGrid c ts).grid k =
      (ts.enum.filter fun it => decide (cellKey c it.2.x it.2.y = k)).map
        (fun it => ⟨it.2, it.1⟩) := by
  have h := grid_foldl_bucket ts.enum (emptyGrid c) k
  simpa [buildGrid, emptyGrid] using h

/-- Membership in a rebuilt grid's bucket: exactly the recorded
(index, target) pairs of the live list whose cell is the queried one. -/
theorem mem_buildGrid_bucket {c : ℚ} {ts : List Target} {k : ℤ × ℤ} {r : TargetRef} :
    r ∈ (buildGrid c ts).grid k ↔
      (r.index, r.obj) ∈ ts.enum ∧ cellKey c r.obj.x r.obj.y = k := by
  rw [buildGrid_bucket]
  simp only [List.mem_map, List.mem_filter, decide_eq_true_eq]
  constructor
  · rintro ⟨⟨i, t⟩, ⟨hmem, hcell⟩, rfl⟩
    exact ⟨hmem, hcell⟩
  · rintro ⟨hmem, hcell⟩
    exact ⟨(r.index, r.obj), ⟨hmem, hcell⟩, rfl⟩

/-- C2: a query on a grid rebuilt with addObject from the live target
list returns a recorded entry exactly when the entry was inserted (its
recorded index paired with its target in the enumeration) and its cell
coordinates — floor(x/cellSize), floor(y/cellSize) — differ from the
query point's cell coordinates by at most 1 on each axis: the 9-cell
neighbourhood. An object two or more full cells away on either axis is
not returned. -/
theorem grid_query_nine_cell_neighbourhood (c : ℚ) (ts : List Target) (x y : ℚ)
    (r : TargetRef) :
    r ∈ (buildGrid c ts).getNearbyObjects x y ↔
      ((r.index, r.obj) ∈ ts.enum ∧
       |⌊r.obj.x / c⌋ - ⌊x / c⌋| ≤ 1 ∧ |⌊r.obj.y / c⌋ - ⌊y / c⌋| ≤ 1) := by
  have hcs : (buildGrid c ts).cellSize = c :=
    grid_foldl_cellSize ts.enum (emptyGrid c)
  constructor
  · intro h
    simp only [SpatialGrid.getNearbyObjects, List.mem_flatMap, List.mem_cons,
      List.not_mem_nil, or_false] at h
    obtain ⟨ox, hox, oy, hoy, hr⟩ := h
    rw [hcs] at hr
    rw [mem_buildGrid_bucket] at hr
    obtain ⟨hmem, hcell⟩ := hr
    refine ⟨hmem, ?_, ?_⟩
    · have h1 : ⌊r.obj.x / c⌋ = (cellKey c x y).1 + ox := congrArg Prod.fst hcell
      simp only [cellKey] at h1
      rw [abs_le]
      rcases hox with h | h | h <;> omega
    · have h2 : ⌊r.obj.y / c⌋ = (cellKey c x y).2 + oy := congrArg Prod.snd hcell
      simp only [cellKey] at h2
      rw [abs_le]
      rcases hoy with h | h | h <;> omega
  · rintro ⟨hmem, hdx, hdy⟩
    rw [abs_le] at hdx hdy
    simp only [SpatialGrid.getNearbyObjects, List.mem_flatMap, List.mem_cons,
      List.not_mem_nil, or_false]
    refine ⟨⌊r.obj.x / c⌋ - ⌊x / c⌋, by omega, ⌊r.obj.y / c⌋ - ⌊y / c⌋, by omega, ?_⟩
    rw [hcs, mem_buildGrid_bucket]
    refine ⟨hmem, ?_⟩
    simp only [cellKey, Prod.mk.injEq]
    constructor <;> omega

/-- A target that survives updateTargets keeps its opacity inside [0,1]:
either it is untouched, or the linear fade value lies strictly between 0
and 1 while the target is still alive. -/
theorem updateTarget_opacity_mem (cfg : TargetConfig) (now : ℚ) (t t2 : Target)
    (hfs1 : cfg.fadeStartPercent < 1)
    (hc : t.creationTime ≤ now)
    (h0 : 0 ≤ t.currentOpacity) (h1 : t.currentOpacity ≤ 1)
    (hup : updateTarget cfg now t = some t2) :
    0 ≤ t2.currentOpacity ∧ t2.currentOpacity ≤ 1 := by
  unfold updateTarget at hup
  dsimp only at hup
  split_ifs at hup with hexp hfade
  · have ht2 : t2 = { t with currentOpacity :=
        1 - (now - t.creationTime - cfg.maxLifespan * cfg.fadeStartPercent) /
          (cfg.maxLifespan * (1 - cfg.fadeStartPercent)) } := (Option.some.inj hup).symm
    have hage : now - t.creationTime < cfg.maxLifespan := lt_of_not_le hexp
    have hmax : 0 < cfg.maxLifespan := lt_of_le_of_lt (by linarith) hage
    have hT : 0 < cfg.maxLifespan * (1 - cfg.fadeStartPercent) :=
      mul_pos hmax (by linarith)
    have he0 : 0 < now - t.creationTime - cfg.maxLifespan * cfg.fadeStartPercent := by
      linarith [hfade]
    have heT : now - t.creationTime - cfg.maxLifespan * cfg.fadeStartPercent <
        cfg.maxLifespan * (1 - cfg.fadeStartPercent) := by nlinarith
    have hlt1 : (now - t.creationTime - cfg.maxLifespan * cfg.fadeStartPercent) /
        (cfg.maxLifespan * (1 - cfg.fadeStartPercent)) < 1 := (div_lt_one hT).mpr heT
    have hpos : 0 < (now - t.creationTime - cfg.maxLifespan * cfg.fadeStartPercent) /
        (cfg.maxLifespan * (1 - cfg.fadeStartPercent)) := div_pos he0 hT
    rw [ht2]
    constructor <;> simp <;> linarith
  · have ht2 : t2 = t := (Option.some.inj hup).symm
    rw [ht2]
    exact ⟨h0, h1⟩

/-- Every survivor of an updateTargets pass over a list of live targets
whose opacities start in [0,1] still has its opacity in [0,1]. -/
theorem updateTargets_survivor_opacity (cfg : TargetConfig) (now : ℚ) (ts : List Target)
    (hfs1 : cfg.fadeStartPercent < 1)
    (hts : ∀ t ∈ ts, t.creationTime ≤ now ∧ 0 ≤ t.currentOpacity ∧ t.currentOpacity ≤ 1) :
    ∀ t2 ∈ (updateTargets cfg now ts).1,
      0 ≤ t2.currentOpacity ∧ t2.currentOpacity ≤ 1 := by
  induction ts with
  | nil => intro t2 ht2; simp [updateTargets] at ht2
  | cons t rest ih =>
    intro t2 ht2
    simp only [updateTargets] at ht2
    cases hup : updateTarget cfg now t with
    | none =>
      rw [hup] at ht2
      exact ih (fun u hu => hts u (List.mem_cons_of_mem _ hu)) t2 ht2
    | some t3 =>
      rw [hup] at ht2
      rcases List.mem_cons.mp ht2 with rfl | hmem
      · exact updateTarget_opacity_mem cfg now t t2 hfs1
          (hts t (List.mem_cons_self _ _)).1
          (hts t (List.mem_cons_self _ _)).2.1
          (hts t (List.mem_cons_self _ _)).2.2 hup
      · exact ih (fun u hu => hts u (List.mem_cons_of_mem _ hu)) t2 hmem

/-- C5: createTarget sets opacity to exactly 1 whatever the random
draws; and on any list of live targets created no later than now with
opacities in [0,1], updateTargets releases expired targets and leaves
every surviving target with currentOpacity in [0,1] — a fading survivor
gets 1 minus (elapsed fade time / fade window), which stays strictly
between 0 and 1 while the target is alive, and an untouched survivor
keeps its old value. -/
theorem target_opacity_unit_interval (cfg : TargetConfig) (now : ℚ) (ts : List Target)
    (hfs0 : 0 < cfg.fadeStartPercent) (hfs1 : cfg.fadeStartPercent < 1)
    (hts : ∀ t ∈ ts, t.creationTime ≤ now ∧ 0 ≤ t.currentOpacity ∧ t.currentOpacity ≤ 1) :
    (∀ w h nw r1 r2 r3 pooled,
       (createTarget cfg w h nw r1 r2 r3 pooled).currentOpacity = 1) ∧
    (∀ t2 ∈ (updateTargets cfg now ts).1,
       0 ≤ t2.currentOpacity ∧ t2.currentOpacity ≤ 1) :=
  ⟨fun _ _ _ _ _ _ _ => rfl, updateTargets_survivor_opacity cfg now ts hfs1 hts⟩

/-- Witness for C5 at the shipped constants (lifespan 8000ms, fade start
at 75%): a target created at time 0 and observed at 7000ms is in its
fade window; its updated opacity of 1/2 is inside [0,1], and a freshly
created target has opacity exactly 1. -/
theorem target_opacity_unit_interval_witness :
    (createTarget ⟨10, 20, 8000, 3 / 4⟩ 800 600 0 0 0 0
        ⟨0, 0, 0, "green", 0, 1⟩).currentOpacity = 1 ∧
    (0 ≤ (⟨100, 100, 10, "green", 0, 1 / 2⟩ : Target).currentOpacity ∧
     (⟨100, 100, 10, "green", 0, 1 / 2⟩ : Target).currentOpacity ≤ 1) := by
  have h := target_opacity_unit_interval ⟨10, 20, 8000, 3 / 4⟩ 7000
    [⟨100, 100, 10, "green", 0, 1⟩] (by norm_num) (by norm_num)
    (by intro t ht; rw [List.mem_singleton] at ht; rw [ht]; norm_num)
  refine ⟨h.1 800 600 0 0 0 0 ⟨0, 0, 0, "green", 0, 1⟩, h.2 _ ?_⟩
  norm_num [updateTargets, updateTarget]

/-- C8 (amended): for every outcome of the random draws (each in [0,1)),
createTarget yields a radius in [minSize, minSize + sizeVariation], an x
within the horizontal extent of the play area (at least one radius away
from each side), a y between the radius and half the play-area height
PLUS the radius (the random offset spans the upper half, and the radius
is then added), the spawn time as creation timestamp, and opacity
exactly 1 — provided the size parameters are non-negative, the height is
non-negative and the play area is at least two maximal radii wide. -/
theorem createTarget_field_contract (cfg : TargetConfig) (w h now r1 r2 r3 : ℚ)
    (pooled : Target)
    (hv : 0 ≤ cfg.sizeVariation) (hm : 0 ≤ cfg.minSize)
    (h1a : 0 ≤ r1) (h1b : r1 < 1) (h2a : 0 ≤ r2) (h2b : r2 < 1)
    (h3a : 0 ≤ r3) (h3b : r3 < 1) (hh : 0 ≤ h)
    (hw : 2 * (cfg.minSize + cfg.sizeVariation) ≤ w) :
    cfg.minSize ≤ (createTarget cfg w h now r1 r2 r3 pooled).radius ∧
    (createTarget cfg w h now r1 r2 r3 pooled).radius ≤ cfg.minSize + cfg.sizeVariation ∧
    (createTarget cfg w h now r1 r2 r3 pooled).radius ≤
      (createTarget cfg w h now r1 r2 r3 pooled).x ∧
    (createTarget cfg w h now r1 r2 r3 pooled).x ≤
      w - (createTarget cfg w h now r1 r2 r3 pooled).radius ∧
    (createTarget cfg w h now r1 r2 r3 pooled).radius ≤
      (createTarget cfg w h now r1 r2 r3 pooled).y ∧
    (createTarget cfg w h now r1 r2 r3 pooled).y ≤
      h / 2 + (createTarget cfg w h now r1 r2 r3 pooled).radius ∧
    (createTarget cfg w h now r1 r2 r3 pooled).creationTime = now ∧
    (createTarget cfg w h now r1 r2 r3 pooled).currentOpacity = 1 := by
  have hrad0 : 0 ≤ r1 * cfg.sizeVariation := mul_nonneg h1a hv
  have hrad1 : r1 * cfg.sizeVariation ≤ cfg.sizeVariation := by nlinarith
  have hwr : 0 ≤ w - (r1 * cfg.sizeVariation + cfg.minSize) * 2 := by nlinarith
  unfold createTarget
  dsimp only
  refine ⟨by linarith, by linarith, ?_, ?_, ?_, ?_, rfl, rfl⟩
  · nlinarith [mul_nonneg h2a hwr]
  · nlinarith [mul_nonneg h2a hwr, mul_le_of_le_one_left hwr (le_of_lt h2b)]
  · nlinarith [mul_nonneg h3a (by linarith : (0 : ℚ) ≤ h / 2)]
  · nlinarith [mul_le_of_le_one_left (by linarith : (0 : ℚ) ≤ h / 2) (le_of_lt h3b)]

/-- C8 counterexample: with the shipped size constants, play area
800 x 600, and draws r1 = 0, r2 = 0, r3 = 99/100, createTarget places
the target at y = 307, strictly below half the play-area height (300):
the code adds the radius after scaling the draw by height/2, so y is NOT
bounded by half the vertical extent. -/
theorem createTarget_y_exceeds_half_height :
    (createTarget ⟨10, 20, 8000, 3 / 4⟩ 800 600 0 0 0 (99 / 100)
      ⟨0, 0, 0, "green", 0, 1⟩).y > 600 / 2 := by
  norm_num [createTarget]

/-- Witness for C8 at the shipped constants (minSize 10, variation 20,
play area 800 x 600) with all three draws at 1/2. -/
theorem createTarget_field_contract_witness :
    (10 : ℚ) ≤ (createTarget ⟨10, 20, 8000, 3 / 4⟩ 800 600 5 (1 / 2) (1 / 2) (1 / 2)
      ⟨0, 0, 0, "green", 0, 1⟩).radius ∧
    (createTarget ⟨10, 20, 8000, 3 / 4⟩ 800 600 5 (1 / 2) (1 / 2) (1 / 2)
      ⟨0, 0, 0, "green", 0, 1⟩).creationTime = 5 := by
  have h := createTarget_field_contract ⟨10, 20, 8000, 3 / 4⟩ 800 600 5
    (1 / 2) (1 / 2) (1 / 2) ⟨0, 0, 0, "green", 0, 1⟩
    (by norm_num) (by norm_num) (by norm_num) (by norm_num) (by norm_num)
    (by norm_num) (by norm_num) (by norm_num) (by norm_num) (by norm_num)
  exact ⟨h.1, h.2.2.2.2.2.2.1⟩

/-- One scheduler callback preserves the scheduler invariant. -/
theorem schedUpdate_inv (ft : ℚ) (hft : 0 ≤ ft) (s : SchedState) (t : ℚ)
    (hinv : SchedInv ft s) : SchedInv ft (schedUpdate ft s t) := by
  obtain ⟨hle, hchain⟩ := hinv
  unfold schedUpdate
  dsimp only
  split_ifs with hfps hskip hpause hskip hpause
  · exact ⟨hle, hchain⟩
  · refine ⟨fun u hu => ?_, hchain⟩
    have := hle u hu
    simp only [not_lt] at hskip
    linarith
  · refine ⟨fun u hu => ?_, ?_⟩
    · simp only [not_lt] at hskip
      rcases List.mem_cons.mp hu with rfl | hmem
      · exact le_refl u
      · have := hle u hmem
        linarith
    · rw [List.chain'_cons']
      refine ⟨fun b hb => ?_, hchain⟩
      simp only [not_lt] at hskip
      have hble : b ≤ s.lastUpdateTime := hle b (List.mem_of_mem_head? hb)
      linarith
  · exact ⟨hle, hchain⟩
  · refine ⟨fun u hu => ?_, hchain⟩
    have := hle u hu
    simp only [not_lt] at hskip
    linarith
  · refine ⟨fun u hu => ?_, ?_⟩
    · simp only [not_lt] at hskip
      rcases List.mem_cons.mp hu with rfl | hmem
      · exact le_refl u
      · have := hle u hmem
        linarith
    · rw [List.chain'_cons']
      refine ⟨fun b hb => ?_, hchain⟩
      simp only [not_lt] at hskip
      have hble : b ≤ s.lastUpdateTime := hle b (List.mem_of_mem_head? hb)
      linarith

/-- A whole scheduler run preserves the scheduler invariant; overriding
the externally controlled running flag does not touch it. -/
theorem runSched_inv (ft : ℚ) (hft : 0 ≤ ft) (events : List (ℚ × Bool)) :
    ∀ s : SchedState, SchedInv ft s → SchedInv ft (runSched ft s events) := by
  induction events with
  | nil => exact fun s h => h
  | cons e rest ih =>
    intro s h
    exact ih _ (schedUpdate_inv ft hft { s with running := e.2 } e.1 h)

/-- C6: a callback whose elapsed time since the last accepted update is
below the frame interval leaves the simulation record, the render
counter and the accepted-update clock unchanged (it only reschedules);
and over any run from the initial state, the timestamps of the accepted
simulation updates are pairwise at least one frame interval apart. -/
theorem scheduler_frame_coalescing (ft : ℚ) (hft : 0 ≤ ft) :
    (∀ (s : SchedState) (t : ℚ), t - s.lastUpdateTime < ft →
       (schedUpdate ft s t).simUpdates = s.simUpdates ∧
       (schedUpdate ft s t).renderCount = s.renderCount ∧
       (schedUpdate ft s t).lastUpdateTime = s.lastUpdateTime) ∧
    (∀ events : List (ℚ × Bool),
       Separated ft ((runSched ft initSched events).simUpdates)) := by
  constructor
  · intro s t h
    unfold schedUpdate
    dsimp only
    split_ifs with hfps
    · exact ⟨rfl, rfl, rfl⟩
    · exact ⟨rfl, rfl, rfl⟩
  · intro events
    have hinit : SchedInv ft initSched := by
      refine ⟨fun u hu => ?_, ?_⟩
      · simp [initSched] at hu
      · simp [SchedInv, initSched]
    have hrun := runSched_inv ft hft events initSched hinit
    obtain ⟨hle, hchain⟩ := hrun
    haveI : IsTrans ℚ (fun a b => b + ft ≤ a) :=
      ⟨fun a b c h1 h2 => by
        have h1b : b + ft ≤ a := h1
        have h2b : c + ft ≤ b := h2
        show c + ft ≤ a
        linarith⟩
    have hpw := List.chain'_iff_pairwise.mp hchain
    refine hpw.imp ?_
    intro a b hab
    have habb : b + ft ≤ a := hab
    have hnn : 0 ≤ a - b := by linarith
    rw [abs_of_nonneg hnn]
    linarith

/-- Witness for C6 at the concrete interval 10: a callback at t = 5 from
the initial state is coalesced without touching the record, and the run
over callbacks at t = 3 and t = 30 has pairwise separated accepted
updates. -/
theorem scheduler_frame_coalescing_witness :
    ((schedUpdate 10 initSched 5).simUpdates = initSched.simUpdates ∧
     (schedUpdate 10 initSched 5).renderCount = initSched.renderCount ∧
     (schedUpdate 10 initSched 5).lastUpdateTime = initSched.lastUpdateTime) ∧
    Separated 10 ((runSched 10 initSched [(3, true), (30, true)]).simUpdates) := by
  have h := scheduler_frame_coalescing 10 (by norm_num)
  exact ⟨h.1 initSched 5 (by norm_num [initSched]), h.2 [(3, true), (30, true)]⟩

/-- find? on a candidate list that starts with rejected candidates
returns the first accepted one, whatever follows it. -/
theorem find?_append_first {α : Type} (f : α → Bool) (l1 l2 : List α) (a : α)
    (h1 : ∀ x ∈ l1, f x = false) (ha : f a = true) :
    (l1 ++ a :: l2).find? f = some a := by
  induction l1 with
  | nil => simp [List.find?_cons, ha]
  | cons b rest ih =>
    have hb : f b = false := h1 b (List.mem_cons_self _ _)
    simp only [List.cons_append, List.find?_cons, hb]
    exact ih fun x hx => h1 x (List.mem_cons_of_mem _ hx)

/-- C1: the collision predicate of checkCollisions holds exactly when
the Euclidean distance between centres is strictly below the sum of the
radii; the candidate scan of one projectile resolves the first
qualifying candidate — releasing both entities, splicing the target at
its recorded index and the projectile, adding the reward exactly once —
and never looks at the candidates after it, so at most one collision is
resolved per projectile per pass; a projectile with no qualifying
candidate only survives into the live list. On the spec's concrete
instance — target at (100,100) radius 10, projectile at (105,100)
radius 5 — the collision fires: both entities move to their pools and
the score increases by the reward exactly once. -/
theorem collision_first_hit_contract :
    (∀ (p : Projectile) (t : Target), collides p t = true ↔
       Real.sqrt (((p.x : ℝ) - (t.x : ℝ)) ^ 2 + ((p.y : ℝ) - (t.y : ℝ)) ^ 2) <
         (p.radius : ℝ) + (t.radius : ℝ)) ∧
    (∀ (sv : ℤ) (p : Projectile) (s : CollState) (l1 : List TargetRef) (td : TargetRef)
       (l2 : List TargetRef),
       collides p td.obj = true → (∀ x ∈ l1, collides p x.obj = false) →
       stepProjectileOn sv (l1 ++ td :: l2) p s =
         { s with targetPool := s.targetPool ++ [td.obj],
                  targets := s.targets.eraseIdx td.index,
                  projectilePool := s.projectilePool ++ [p],
                  score := s.score + sv }) ∧
    (∀ (sv : ℤ) (nearby : List TargetRef) (p : Projectile) (s : CollState),
       (∀ x ∈ nearby, collides p x.obj = false) →
       stepProjectileOn sv nearby p s = { s with projectiles := p :: s.projectiles }) ∧
    (checkCollisions 100 10
        { projectiles := [exampleProjectile], targets := [exampleTarget],
          projectilePool := [], targetPool := [], score := 0 } =
      { projectiles := [], targets := [], projectilePool := [exampleProjectile],
        targetPool := [exampleTarget], score := 10 }) := by
  refine ⟨?_, ?_, ?_, ?_⟩
  · intro p t
    rw [collides, decide_eq_true_eq]
    constructor
    · rintro ⟨hs, hd⟩
      have hsR : (0 : ℝ) < (p.radius : ℝ) + (t.radius : ℝ) := by exact_mod_cast hs
      rw [Real.sqrt_lt' hsR]
      exact_mod_cast hd
    · intro h
      have hsR : (0 : ℝ) < (p.radius : ℝ) + (t.radius : ℝ) :=
        lt_of_le_of_lt (Real.sqrt_nonneg _) h
      rw [Real.sqrt_lt' hsR] at h
      exact ⟨by exact_mod_cast hsR, by exact_mod_cast h⟩
  · intro sv p s l1 td l2 hcol h1
    unfold stepProjectileOn
    rw [find?_append_first (fun x => collides p x.obj) l1 l2 td h1 hcol]
  · intro sv nearby p s hnone
    unfold stepProjectileOn
    rw [List.find?_eq_none.mpr fun x hx => by simp [hnone x hx]]
  · have hnear : (buildGrid 100 [exampleTarget]).getNearbyObjects
        exampleProjectile.x exampleProjectile.y = [⟨exampleTarget, 0⟩] := by
      norm_num [SpatialGrid.getNearbyObjects, buildGrid, emptyGrid, SpatialGrid.addObject,
        cellKey, exampleTarget, exampleProjectile, Prod.ext_iff]
    have hcol : collides exampleProjectile exampleTarget = true := by
      norm_num [collides, exampleTarget, exampleProjectile]
    unfold checkCollisions
    dsimp only
    simp only [List.reverse_cons, List.reverse_nil, List.nil_append]
    unfold runProjectiles stepProjectile
    rw [hnear]
    unfold stepProjectileOn
    simp only [List.find?_cons, hcol]
    unfold runProjectiles
    norm_num [List.eraseIdx]

/-- Witness for C1: the first-hit resolution applied with an empty
rejected prefix and an empty tail, and the no-hit survival applied with
an empty candidate list, both at the spec's concrete entities. -/
theorem collision_first_hit_contract_witness :
    stepProjectileOn 10 [⟨exampleTarget, 0⟩] exampleProjectile
        { projectiles := [], targets := [exampleTarget], projectilePool := [],
          targetPool := [], score := 0 } =
      { projectiles := [], targets := [exampleTarget].eraseIdx 0, projectilePool := [exampleProjectile],
        targetPool := [exampleTarget], score := 0 + 10 } ∧
    stepProjectileOn 10 [] exampleProjectile
        { projectiles := [], targets := [exampleTarget], projectilePool := [],
          targetPool := [], score := 0 } =
      { projectiles := [exampleProjectile], targets := [exampleTarget], projectilePool := [],
        targetPool := [], score := 0 } := by
  constructor
  · exact collision_first_hit_contract.2.1 10 exampleProjectile
      { projectiles := [], targets := [exampleTarget], projectilePool := [],
        targetPool := [], score := 0 } [] ⟨exampleTarget, 0⟩ []
      (by norm_num [collides, exampleTarget, exampleProjectile])
      (by intro x hx; simp at hx)
  · exact collision_first_hit_contract.2.2.1 10 [] exampleProjectile
      { projectiles := [], targets := [exampleTarget], projectilePool := [],
        targetPool := [], score := 0 }
      (by intro x hx; simp at hx)

/-- Step equation of the projectile loop. -/
theorem runProjectiles_cons (g : SpatialGrid) (sv : ℤ) (p : Projectile)
    (rest : List Projectile) (s : CollState) :
    runProjectiles g sv (p :: rest) s = runProjectiles g sv rest (stepProjectile g sv p s) :=
  rfl

/-- A prefix of projectiles that all miss only accumulates those
projectiles back into the live list (in reversed processing order) and
touches neither the targets, the pools nor the score. -/
theorem runProjectiles_misses (g : SpatialGrid) (sv : ℤ) :
    ∀ (misses : List Projectile),
      (∀ q ∈ misses, ((g.getNearbyObjects q.x q.y).find?
          (fun x => collides q x.obj)) = none) →
      ∀ (ps : List Projectile) (st : CollState),
        runProjectiles g sv (misses ++ ps) st =
          runProjectiles g sv ps
            { st with projectiles := misses.reverse ++ st.projectiles } := by
  intro misses
  induction misses with
  | nil => intro _ ps st; rfl
  | cons q qs ih =>
    intro hmiss ps st
    rw [List.cons_append, runProjectiles_cons]
    have hq := hmiss q (List.mem_cons_self _ _)
    have hstep : stepProjectile g sv q st = { st with projectiles := q :: st.projectiles } := by
      unfold stepProjectile stepProjectileOn
      rw [hq]
    rw [hstep, ih (fun x hx => hmiss x (List.mem_cons_of_mem _ hx)) ps]
    congr 1
    simp

/-- C3 (amended): a pool hands a slot out by deleting it from the free
list, so the same slot cannot be handed out twice before a release
returns it; and in every checkCollisions pass the FIRST resolved
collision — the first projectile in processing order whose scan finds a
hit, all earlier-processed projectiles having missed — removes from the
live target collection the very target object that was released: no
removal has happened yet, so the entry's recorded index still addresses
that target in the unmodified live list and the splice deletes exactly
that position. (Later resolutions in the same pass work on a list
already shifted by earlier removals, so a stale recorded index can
delete a different position or nothing, leaving the released target in
the live collection.) -/
theorem first_collision_removes_released_target (cellSize : ℚ) (sv : ℤ) (s : CollState)
    (misses : List Projectile) (p : Projectile) (rest : List Projectile) (td : TargetRef)
    (hrev : s.projectiles.reverse = misses ++ p :: rest)
    (hmiss : ∀ q ∈ misses, ((buildGrid cellSize s.targets).getNearbyObjects q.x q.y).find?
        (fun x => collides q x.obj) = none)
    (hfind : ((buildGrid cellSize s.targets).getNearbyObjects p.x p.y).find?
        (fun x => collides p x.obj) = some td) :
    (∀ {α : Type} (P : ObjectPool α) (v : α), P.pool.getLast? = some v →
       (P.get).1 = v ∧ (P.get).2.pool = P.pool.dropLast) ∧
    s.targets.get? td.index = some td.obj ∧
    checkCollisions cellSize sv s =
      runProjectiles (buildGrid cellSize s.targets) sv rest
        { projectiles := misses.reverse,
          targets := s.targets.take td.index ++ s.targets.drop (td.index + 1),
          projectilePool := s.projectilePool ++ [p],
          targetPool := s.targetPool ++ [td.obj],
          score := s.score + sv } := by
  have htd_mem : td ∈ (buildGrid cellSize s.targets).getNearbyObjects p.x p.y :=
    List.mem_of_find?_eq_some hfind
  have hbucket : ∃ k, td ∈ (buildGrid cellSize s.targets).grid k := by
    simp only [SpatialGrid.getNearbyObjects, List.mem_flatMap] at htd_mem
    obtain ⟨ox, _, oy, _, h⟩ := htd_mem
    exact ⟨_, h⟩
  obtain ⟨k, hk⟩ := hbucket
  have hget : s.targets.get? td.index = some td.obj :=
    List.mk_mem_enum_iff_get?.mp (mem_buildGrid_bucket.mp hk).1
  refine ⟨?_, hget, ?_⟩
  · intro α P v hv
    simp [ObjectPool.get, hv]
  · unfold checkCollisions
    dsimp only
    rw [hrev, runProjectiles_misses (buildGrid cellSize s.targets) sv misses hmiss (p :: rest),
      runProjectiles_cons]
    congr 1
    unfold stepProjectile stepProjectileOn
    rw [hfind]
    dsimp only
    rw [List.eraseIdx_eq_take_drop_succ]
    simp

/-- Witness for C3: the pass processes the far projectile first (it
misses: no target within its 9-cell neighbourhood), then the spec's
projectile, whose hit is therefore the pass's first resolved collision;
the grid entry records index 0, which indeed addresses the collided
target, and the pass removes it while releasing it. The slot conjunct
is exercised on the free list [3, 4]. -/
theorem first_collision_removes_released_target_witness :
    (((⟨[3, 4], fun _ => 9⟩ : ObjectPool ℕ).get).1 = 4 ∧
     ((⟨[3, 4], fun _ => 9⟩ : ObjectPool ℕ).get).2.pool = [3, 4].dropLast) ∧
    ([exampleTarget].get? 0 = some exampleTarget) ∧
    checkCollisions 100 10
        { projectiles := [exampleProjectile, farProjectile], targets := [exampleTarget],
          projectilePool := [], targetPool := [], score := 0 } =
      runProjectiles (buildGrid 100 [exampleTarget]) 10 []
        { projectiles := [farProjectile].reverse,
          targets := [exampleTarget].take 0 ++ [exampleTarget].drop 1,
          projectilePool := [] ++ [exampleProjectile],
          targetPool := [] ++ [exampleTarget],
          score := 0 + 10 } := by
  have hnear : (buildGrid 100 [exampleTarget]).getNearbyObjects
      exampleProjectile.x exampleProjectile.y = [⟨exampleTarget, 0⟩] := by
    norm_num [SpatialGrid.getNearbyObjects, buildGrid, emptyGrid, SpatialGrid.addObject,
      cellKey, exampleTarget, exampleProjectile, Prod.ext_iff]
  have hfar : (buildGrid 100 [exampleTarget]).getNearbyObjects
      farProjectile.x farProjectile.y = [] := by
    norm_num [SpatialGrid.getNearbyObjects, buildGrid, emptyGrid, SpatialGrid.addObject,
      cellKey, exampleTarget, farProjectile, Prod.ext_iff]
  have hcol : collides exampleProjectile exampleTarget = true := by
    norm_num [collides, exampleTarget, exampleProjectile]
  have h := first_collision_removes_released_target 100 10
    { projectiles := [exampleProjectile, farProjectile], targets := [exampleTarget],
      projectilePool := [], targetPool := [], score := 0 }
    [farProjectile] exampleProjectile [] ⟨exampleTarget, 0⟩ rfl
    (by intro q hq
        rw [List.mem_singleton] at hq
        subst hq
        rw [hfar]
        rfl)
    (by rw [hnear]; simp [List.find?_cons, hcol])
  exact ⟨h.1 (⟨[3, 4], fun _ => 9⟩ : ObjectPool ℕ) 4 rfl, h.2.1, h.2.2⟩

/-- C3 counterexample: two projectiles each sitting on one of two
targets that share a grid cell. The pass resolves both. The first
resolution removes targetA (index 0) and shifts targetB to index 0, but
targetB's recorded index is still 1, so the second resolution releases
targetB to the pool and splices index 1 of the one-element list — which
removes nothing. After the pass targetB is simultaneously in the live
target collection and in the target pool's free list, refuting the
claimed invariant for passes that resolve more than one collision. -/
theorem stale_index_leaves_released_target_live :
    (checkCollisions 100 10
        { projectiles := [projOnB, projOnA], targets := [targetA, targetB],
          projectilePool := [], targetPool := [], score := 0 }).targets = [targetB] ∧
    (checkCollisions 100 10
        { projectiles := [projOnB, projOnA], targets := [targetA, targetB],
          projectilePool := [], targetPool := [], score := 0 }).targetPool =
      [targetA, targetB] := by
  have hnearA : (buildGrid 100 [targetA, targetB]).getNearbyObjects
      projOnA.x projOnA.y = [⟨targetA, 0⟩, ⟨targetB, 1⟩] := by
    norm_num [SpatialGrid.getNearbyObjects, buildGrid, emptyGrid, SpatialGrid.addObject,
      cellKey, targetA, targetB, projOnA, Prod.ext_iff, List.enum_cons,
      List.enumFrom_cons, List.enumFrom_nil]
  have hnearB : (buildGrid 100 [targetA, targetB]).getNearbyObjects
      projOnB.x projOnB.y = [⟨targetA, 0⟩, ⟨targetB, 1⟩] := by
    norm_num [SpatialGrid.getNearbyObjects, buildGrid, emptyGrid, SpatialGrid.addObject,
      cellKey, targetA, targetB, projOnB, Prod.ext_iff, List.enum_cons,
      List.enumFrom_cons, List.enumFrom_nil]
  have hA1 : collides projOnA targetA = true := by
    norm_num [collides, projOnA, targetA]
  have hB0 : collides projOnB targetA = false := by
    norm_num [collides, projOnB, targetA]
  have hB1 : collides projOnB targetB = true := by
    norm_num [collides, projOnB, targetB]
  have hstate : checkCollisions 100 10
      { projectiles := [projOnB, projOnA], targets := [targetA, targetB],
        projectilePool := [], targetPool := [], score := 0 } =
      { projectiles := [], targets := [targetB], projectilePool := [projOnA, projOnB],
        targetPool := [targetA, targetB], score := 20 } := by
    unfold checkCollisions
    dsimp only
    simp only [List.reverse_cons, List.reverse_nil, List.nil_append, List.cons_append,
      List.singleton_append]
    unfold runProjectiles stepProjectile
    rw [hnearA]
    unfold stepProjectileOn
    simp only [List.find?_cons, hA1]
    unfold runProjectiles stepProjectile
    rw [hnearB]
    unfold stepProjectileOn
    simp only [List.find?_cons, hB0, hB1]
    unfold runProjectiles
    norm_num [List.eraseIdx]
  exact ⟨by rw [hstate], by rw [hstate]⟩

/-- The speed magnitude is monotone in the squares of the components. -/
theorem sqrt_sumsq_le_sqrt_sumsq {a b c d : ℝ} (h1 : a ^ 2 ≤ c ^ 2) (h2 : b ^ 2 ≤ d ^ 2) :
    Real.sqrt (a ^ 2 + b ^ 2) ≤ Real.sqrt (c ^ 2 + d ^ 2) :=
  Real.sqrt_le_sqrt (by linarith)

/-- Scaling by a factor in [0,1] shrinks the square of a component. -/
theorem sq_mul_le_sq (v f : ℝ) (hf0 : 0 ≤ f) (hf1 : f ≤ 1) : (v * f) ^ 2 ≤ v ^ 2 := by
  nlinarith [mul_nonneg (mul_nonneg (sq_nonneg v) (by linarith : (0 : ℝ) ≤ 1 - f))
    (by linarith : (0 : ℝ) ≤ 1 + f)]

/-- After the speed-limit block the speed is at most maxSpeed: either it
already was, or both components were scaled by maxSpeed / currentSpeed,
which lands the magnitude exactly on maxSpeed. -/
theorem speed_clampSpeed_le (maxSpeed : ℝ) (hM : 0 < maxSpeed) (p : Player) :
    speed (clampSpeed maxSpeed p) ≤ maxSpeed := by
  unfold clampSpeed speed
  dsimp only
  by_cases h : Real.sqrt (p.vx ^ 2 + p.vy ^ 2) > maxSpeed
  · rw [if_pos h]
    dsimp only
    have hq0 : (0 : ℝ) ≤ p.vx ^ 2 + p.vy ^ 2 := by positivity
    have hs0 : 0 < Real.sqrt (p.vx ^ 2 + p.vy ^ 2) := lt_trans hM h
    have hs2 : Real.sqrt (p.vx ^ 2 + p.vy ^ 2) ^ 2 = p.vx ^ 2 + p.vy ^ 2 :=
      Real.sq_sqrt hq0
    have hqpos : 0 < p.vx ^ 2 + p.vy ^ 2 := Real.sqrt_pos.mp hs0
    have hval : (p.vx * (maxSpeed / Real.sqrt (p.vx ^ 2 + p.vy ^ 2))) ^ 2 +
        (p.vy * (maxSpeed / Real.sqrt (p.vx ^ 2 + p.vy ^ 2))) ^ 2 = maxSpeed ^ 2 := by
      calc (p.vx * (maxSpeed / Real.sqrt (p.vx ^ 2 + p.vy ^ 2))) ^ 2 +
          (p.vy * (maxSpeed / Real.sqrt (p.vx ^ 2 + p.vy ^ 2))) ^ 2
          = (p.vx ^ 2 + p.vy ^ 2) * maxSpeed ^ 2 /
              Real.sqrt (p.vx ^ 2 + p.vy ^ 2) ^ 2 := by ring
        _ = (p.vx ^ 2 + p.vy ^ 2) * maxSpeed ^ 2 / (p.vx ^ 2 + p.vy ^ 2) := by rw [hs2]
        _ = maxSpeed ^ 2 := by
            rw [mul_comm, mul_div_assoc, div_self (ne_of_gt hqpos), mul_one]
    rw [hval, Real.sqrt_sq hM.le]
  · rw [if_neg h]
    exact le_of_not_lt h

/-- Multiplicative friction with a factor in [0,1] does not increase the
speed. -/
theorem speed_applyFriction_le (f : ℝ) (hf0 : 0 ≤ f) (hf1 : f ≤ 1) (p : Player) :
    speed (applyFriction f p) ≤ speed p := by
  unfold applyFriction speed
  dsimp only
  exact sqrt_sumsq_le_sqrt_sumsq (sq_mul_le_sq p.vx f hf0 hf1) (sq_mul_le_sq p.vy f hf0 hf1)

/-- Zeroing near-zero components does not increase the speed. -/
theorem speed_snapTinyVelocity_le (p : Player) :
    speed (snapTinyVelocity p) ≤ speed p := by
  unfold snapTinyVelocity speed
  dsimp only
  refine sqrt_sumsq_le_sqrt_sumsq ?_ ?_
  · split_ifs with h
    · simpa using sq_nonneg p.vx
    · exact le_refl _
  · split_ifs with h
    · simpa using sq_nonneg p.vy
    · exact le_refl _

/-- Boundary reflection with an energy-loss factor in [0,1] does not
increase the speed (it only flips and shrinks components). -/
theorem speed_integrateAndBounce_le (cfg : PlayerConfig)
    (hb0 : 0 ≤ cfg.bounceEnergyLoss) (hb1 : cfg.bounceEnergyLoss ≤ 1) (p : Player) :
    speed (integrateAndBounce cfg p) ≤ speed p := by
  unfold integrateAndBounce speed
  dsimp only
  have hsx : (p.vx * -cfg.bounceEnergyLoss) ^ 2 ≤ p.vx ^ 2 :=
    le_trans (le_of_eq (by ring)) (sq_mul_le_sq p.vx cfg.bounceEnergyLoss hb0 hb1)
  have hsy : (p.vy * -cfg.bounceEnergyLoss) ^ 2 ≤ p.vy ^ 2 :=
    le_trans (le_of_eq (by ring)) (sq_mul_le_sq p.vy cfg.bounceEnergyLoss hb0 hb1)
  refine sqrt_sumsq_le_sqrt_sumsq ?_ ?_
  · split_ifs <;> first | exact hsx | exact le_refl _
  · split_ifs <;> first | exact hsy | exact le_refl _

/-- One full updatePlayer tick leaves the speed at or below maxSpeed,
from any starting state: the clamp establishes the bound and friction,
snapping and bouncing can only lower it. -/
theorem updatePlayer_speed_le (cfg : PlayerConfig) (hf0 : 0 ≤ cfg.friction)
    (hf1 : cfg.friction ≤ 1) (hb0 : 0 ≤ cfg.bounceEnergyLoss)
    (hb1 : cfg.bounceEnergyLoss ≤ 1) (hM : 0 < cfg.maxSpeed)
    (inp : InputState) (p : Player) :
    speed (updatePlayer cfg inp p) ≤ cfg.maxSpeed := by
  unfold updatePlayer
  calc speed (integrateAndBounce cfg (snapTinyVelocity (applyFriction cfg.friction
        (clampSpeed cfg.maxSpeed (applyInputAccel cfg.acceleration inp p)))))
      ≤ speed (snapTinyVelocity (applyFriction cfg.friction
        (clampSpeed cfg.maxSpeed (applyInputAccel cfg.acceleration inp p)))) :=
        speed_integrateAndBounce_le cfg hb0 hb1 _
    _ ≤ speed (applyFriction cfg.friction
        (clampSpeed cfg.maxSpeed (applyInputAccel cfg.acceleration inp p))) :=
        speed_snapTinyVelocity_le _
    _ ≤ speed (clampSpeed cfg.maxSpeed (applyInputAccel cfg.acceleration inp p)) :=
        speed_applyFriction_le cfg.friction hf0 hf1 _
    _ ≤ cfg.maxSpeed := speed_clampSpeed_le cfg.maxSpeed hM _

/-- C4: for every sequence of held-direction inputs and every number of
ticks (at least one), the player's speed after the last tick's
acceleration/clamp/friction/snap/bounce integration never exceeds the
configured maximum — assuming the friction and bounce energy-loss
factors lie in [0,1] and the maximum speed is positive. -/
theorem player_speed_never_exceeds_max (cfg : PlayerConfig)
    (hf0 : 0 ≤ cfg.friction) (hf1 : cfg.friction ≤ 1)
    (hb0 : 0 ≤ cfg.bounceEnergyLoss) (hb1 : cfg.bounceEnergyLoss ≤ 1)
    (hM : 0 < cfg.maxSpeed) :
    ∀ (inputs : List InputState) (p : Player), inputs ≠ [] →
      speed (runPlayer cfg inputs p) ≤ cfg.maxSpeed := by
  intro inputs
  induction inputs with
  | nil => exact fun p h => absurd rfl h
  | cons i rest ih =>
    intro p _
    have hstep : runPlayer cfg (i :: rest) p = runPlayer cfg rest (updatePlayer cfg i p) :=
      rfl
    rw [hstep]
    rcases rest with _ | ⟨j, back⟩
    · exact updatePlayer_speed_le cfg hf0 hf1 hb0 hb1 hM i p
    · exact ih (updatePlayer cfg i p) (by simp)

/-- Witness for C4 at concrete constants (friction 9/10, bounce 4/5,
max speed 8) with one tick of held-left input from rest at the centre. -/
theorem player_speed_never_exceeds_max_witness :
    speed (runPlayer ⟨2, 8, 9 / 10, 4 / 5, 10, 800, 600⟩
      [⟨true, false, false, false⟩] ⟨400, 300, 0, 0⟩) ≤ 8 :=
  player_speed_never_exceeds_max ⟨2, 8, 9 / 10, 4 / 5, 10, 800, 600⟩
    (by norm_num) (by norm_num) (by norm_num) (by norm_num) (by norm_num)
    [⟨true, false, false, false⟩] ⟨400, 300, 0, 0⟩ (by simp)

end ClickFire
